import Mathlib

/-!
Verification of the task-board (Kanban) CRUD core of this repository.

The repository holds two near-duplicate variants of the same store:

* `tasks.py` + `backend.py` — Spanish field names (`contenido` / `estado`),
  `guardar_tareas` writes atomically (temp file + rename), the Flask
  endpoints live in `backend.py`;
* `app/models.py` + `app/routes.py` — English field names
  (`content` / `state`), `_save_tasks` writes directly to the storage file,
  validation lives in the routes.

Both variants perform every CRUD operation as a load → mutate → save cycle
over a JSON array stored in `tasks.json`.  The embedding below models

* the task record (`Task`);
* Python's `max(..., default=d)` (`pyMax`) and the id generators;
* the decoded payload scalars reaching the endpoints (`PyVal`, `pyStr`);
* the CRUD operations of both variants as functions on the decoded task
  list together with the outcome (the saved list is returned in every
  case, also on a rejected request, so frame conditions are meaningful);
* the storage file at the JSON-tree level (`Json`, `Stored`) for the
  load/save round-trip claims;
* the storage file at the byte level (`Fs`, `FsOp`, `crashStates`) for
  the atomic-write claim: a direct write can crash leaving any prefix of
  the new text, a rename is atomic.

State threading through the file is modeled as function composition on the
decoded list; this is justified by the proved save/load round-trip.
-/

deriving instance DecidableEq for Except

namespace Kanban

/-- A task record.  `tasks.py`/`backend.py` name the fields
`id`/`contenido`/`estado`, `app/models.py` names them
`id`/`content`/`state`; the structure is identical, so one Lean structure
embeds both (English names used).  Python's `json` decodes ids as
unbounded integers, hence `Int`. -/
structure Task where
  id : Int
  content : String
  state : String
deriving DecidableEq, Repr

/-- Python's `max(xs, default=d)`: `d` when the list is empty, otherwise
the maximum of the elements (the default does not participate in the
maximum). -/
def pyMax (xs : List Int) (d : Int) : Int :=
  match xs with
  | [] => d
  | x :: rest => rest.foldl max x

/-- `tasks.py` line 47, `generar_id_unico(tareas)`: `1` when the list is
empty, otherwise `max(t['id'] for t in tareas) + 1` (Python's `max` of a
nonempty list is a left fold of binary `max` over the elements). -/
def generar_id_unico (tareas : List Task) : Int :=
  match tareas.map Task.id with
  | [] => 1
  | x :: xs => xs.foldl max x + 1

/-- The whitespace characters Python's `str.strip()` removes (ASCII
portion: space, tab, newline, carriage return, vertical tab, form
feed). -/
def isPySpace (c : Char) : Bool :=
  c = ' ' || c = '\t' || c = '\n' || c = '\r' || c = '\x0b' || c = '\x0c'

/-- Drop leading and trailing whitespace from a character list. -/
def stripChars (l : List Char) : List Char :=
  ((l.dropWhile isPySpace).reverse.dropWhile isPySpace).reverse

/-- Python's `s.strip()`: the string without leading and trailing
whitespace. -/
def pyStrip (s : String) : String := ⟨stripChars s.data⟩

/-- A JSON scalar as decoded by Flask's `request.get_json` and handed to
the endpoints: a string, an integer, or a boolean.  (JSON `null` inside a
payload field is returned by `dict.get` as Python `None` and is modeled by
`Option.none` at the call sites; arrays/objects as field values are
outside the model.) -/
inductive PyVal where
  | vstr (s : String)
  | vint (n : Int)
  | vbool (b : Bool)
deriving DecidableEq, Repr

/-- Python's `str()` applied to a decoded JSON scalar, as done by
`app/routes.py` (`str(data["content"])`): a string is returned unchanged,
an integer prints in decimal, booleans print as `True` / `False`. -/
def pyStr : PyVal → String
  | .vstr s => s
  | .vint n => toString n
  | .vbool true => "True"
  | .vbool false => "False"

/-- Whether the scalar is a Python `str` (the `isinstance(contenido, str)`
test of `backend.py`). -/
def isStrVal : PyVal → Bool
  | .vstr _ => true
  | _ => false

/-- Outcome classes of an endpoint call: `validation` is HTTP 400
(`abort(400)` / the explicit 400 returns), `notFound` is HTTP 404
(`KeyError` mapped by the routes, or the explicit 404 returns). -/
inductive ApiError where
  | validation
  | notFound
deriving DecidableEq, Repr

-- ---------------------------------------------------------------------------
-- JSON trees and the storage file (tree level)
-- ---------------------------------------------------------------------------

/-- A JSON value, as produced by `json.load`. -/
inductive Json where
  | null
  | bool (b : Bool)
  | num (n : Int)
  | str (s : String)
  | arr (items : List Json)
  | obj (fields : List (String × Json))
deriving Repr

/-- Contents of the storage file as seen by a loader: absent, present but
not valid JSON text, or a parsed JSON value.  (`json.dump` followed by
`json.load` is the identity on JSON trees, which this level abstracts.) -/
inductive Stored where
  | missing
  | corrupt
  | json (j : Json)

/-- `tasks.py` line 19, `cargar_tareas()`: returns the parsed JSON value;
a `FileNotFoundError` (absent file) and a `JSONDecodeError` (corrupt file)
are both caught and turned into the empty list. -/
def cargar_tareas : Stored → Json
  | .missing => .arr []
  | .corrupt => .arr []
  | .json j => j

namespace Models

/-- Errors `Task.from_dict` can raise in `app/models.py`: a missing
required key raises `KeyError`; a field of the wrong shape is modeled as
`typeError` (the Python dataclass would accept an ill-typed field without
checking; the model requires the declared field types — this restriction
is irrelevant to the claims, which never exercise ill-typed fields). -/
inductive PyErr where
  | keyError
  | typeError
deriving DecidableEq, Repr

/-- First-match lookup in a JSON object's field list (JSON objects written
by this program never repeat a key). -/
def lookupKey (fields : List (String × Json)) (k : String) : Option Json :=
  match fields with
  | [] => none
  | (k2, v) :: rest => if k2 = k then some v else lookupKey rest k

/-- `app/models.py` line 23, `Task.from_dict(data)`: reads `data["id"]`
and `data["content"]` (a missing key raises `KeyError`), and
`data.get("state", DEFAULT_STATE)` with default `"Por Hacer"`. -/
def from_dict (j : Json) : Except PyErr Task :=
  match j with
  | .obj fields =>
    match lookupKey fields "id", lookupKey fields "content" with
    | some (.num i), some (.str c) =>
      match lookupKey fields "state" with
      | some (.str s) => .ok ⟨i, c, s⟩
      | none => .ok ⟨i, c, "Por Hacer"⟩
      | some _ => .error .typeError
    | none, _ => .error .keyError
    | some _, none => .error .keyError
    | some _, some _ => .error .typeError
  | _ => .error .typeError

/-- The list comprehension `[Task.from_dict(item) for item in data]` of
`_load_tasks`: the first failing item aborts the whole load. -/
def decodeTasks : List Json → Except PyErr (List Task)
  | [] => .ok []
  | j :: rest => do
    let t ← from_dict j
    let ts ← decodeTasks rest
    .ok (t :: ts)

/-- `app/models.py` line 40, `_load_tasks()` (Python name `_load_tasks`,
leading underscore dropped): absent file → `[]`; `json.JSONDecodeError` /
`OSError` caught → `[]`; otherwise each array item goes through
`Task.from_dict` (iterating a non-array is modeled as `typeError`). -/
def load_tasks : Stored → Except PyErr (List Task)
  | .missing => .ok []
  | .corrupt => .ok []
  | .json (.arr items) => decodeTasks items
  | .json _ => .error .typeError

/-- `app/models.py` line 17, `Task.to_dict`: the serialized object with
keys `id`, `content`, `state`. -/
def encodeTask (t : Task) : Json :=
  .obj [("id", .num t.id), ("content", .str t.content), ("state", .str t.state)]

/-- `app/models.py` line 54, `_save_tasks(tasks)` at the JSON-tree level
(Python name `_save_tasks`): `json.dump([task.to_dict() for task in
tasks], f)` leaves the file holding the serialized array. -/
def save_tasksStored (tasks : List Task) : Stored :=
  .json (.arr (tasks.map encodeTask))

/-- `app/models.py` line 68, `add_task(content)`: computes
`max((t.id for t in tasks), default=0) + 1`, appends
`Task(id=new_id, content=content)` (state takes the dataclass default
`"Por Hacer"`), saves, and returns the new task.  The function itself does
no validation (that lives in `app/routes.py`). -/
def add_task (tasks : List Task) (content : String) : Task × List Task :=
  let newId := pyMax (tasks.map Task.id) 0 + 1
  let t : Task := ⟨newId, content, "Por Hacer"⟩
  (t, tasks ++ [t])

/-- The `for t in tasks: if t.id == task_id: ... return t` loop shared by
`app/models.py`'s `update_task` and `backend.py`'s `next(...)`-based
update: mutate the first task whose id matches with `f`, return it and the
resulting list; `none` when no task matches. -/
def updateFirst (f : Task → Task) (taskId : Int) : List Task → Option (Task × List Task)
  | [] => none
  | t :: rest =>
    if t.id = taskId then
      let t2 := f t
      some (t2, t2 :: rest)
    else
      match updateFirst f taskId rest with
      | none => none
      | some (u, rest2) => some (u, t :: rest2)

/-- `app/models.py` line 76, `update_task(task_id, content=None,
state=None)`: mutates the first matching task (each provided field is
assigned, an omitted field is left as is), saves and returns it; raises
`KeyError` (mapped to 404 by the route) when no task matches, in which
case nothing was saved — the returned list is the stored one in both
cases. -/
def update_task (tasks : List Task) (taskId : Int) (content : Option String)
    (state : Option String) : Except ApiError Task × List Task :=
  match updateFirst
      (fun t => { t with content := content.getD t.content, state := state.getD t.state })
      taskId tasks with
  | none => (.error .notFound, tasks)
  | some (t2, tasks2) => (.ok t2, tasks2)

/-- `app/models.py` line 88, `delete_task(task_id)` (identical logic in
`backend.py` line 128): filter out the matching ids; if the length did not
change, raise `KeyError` / return 404 without saving; otherwise save the
filtered list. -/
def delete_task (tasks : List Task) (taskId : Int) : Except ApiError Unit × List Task :=
  let newTasks := tasks.filter (fun t => t.id != taskId)
  if newTasks.length = tasks.length then
    (.error .notFound, tasks)
  else
    (.ok (), newTasks)

end Models

namespace Routes

/-- `app/routes.py` line 39, `create_task()`: requires the `content` key
(absence is a 400 handled before this model's input), coerces it with
`str(...)` and strips it; an empty result aborts with 400 before
`add_task` runs, so the store is untouched; otherwise delegates to
`Models.add_task` with the stripped string. -/
def create_task (tasks : List Task) (content : PyVal) : Except ApiError Task × List Task :=
  let c := pyStrip (pyStr content)
  if c = "" then
    (.error .validation, tasks)
  else
    let (t, tasks2) := Models.add_task tasks c
    (.ok t, tasks2)

/-- `app/routes.py` line 52, `modify_task(task_id)`: a provided `content`
is coerced with `str(...)` and stripped, and an empty result aborts with
400 before `update_task` runs (store untouched); `state` is passed through
without any validation.  `update_task`'s `KeyError` becomes 404. -/
def modify_task (tasks : List Task) (taskId : Int) (content : Option PyVal)
    (state : Option String) : Except ApiError Task × List Task :=
  match content with
  | some v =>
    let c := pyStrip (pyStr v)
    if c = "" then
      (.error .validation, tasks)
    else
      Models.update_task tasks taskId (some c) state
  | none => Models.update_task tasks taskId none state

end Routes

namespace Backend

/-- `backend.py` line 80, `create_task()`: reads `contenido`
(`none` models an absent key or JSON `null`) and `estado` with default
`"Por Hacer"`; returns 400 when `contenido` is not a string or strips to
empty, before any load or save; otherwise appends
`Task(id=max((t.id for t in tasks), default=0) + 1,
contenido=contenido.strip(), estado=estado)` and saves.  (State payloads
are modeled as strings.) -/
def create_task (tasks : List Task) (contenido : Option PyVal)
    (estado : Option String) : Except ApiError Task × List Task :=
  match contenido with
  | some (.vstr s) =>
    if pyStrip s = "" then
      (.error .validation, tasks)
    else
      let newId := pyMax (tasks.map Task.id) 0 + 1
      let t : Task := ⟨newId, pyStrip s, estado.getD "Por Hacer"⟩
      (.ok t, tasks ++ [t])
  | _ => (.error .validation, tasks)

/-- `backend.py` line 101, `update_task(task_id)`: returns 400 when a
provided `contenido` is not a string or strips to empty — this check runs
before `_load_tasks` and the lookup; then the first matching task gets
`contenido.strip()` and/or `estado` assigned and the list is saved; a
missing id is 404 with nothing saved. -/
def update_task (tasks : List Task) (taskId : Int) (contenido : Option PyVal)
    (estado : Option String) : Except ApiError Task × List Task :=
  let go := fun (c : Option String) =>
    match Models.updateFirst
        (fun t => { t with content := c.getD t.content, state := estado.getD t.state })
        taskId tasks with
    | none => ((.error .notFound : Except ApiError Task), tasks)
    | some (t2, tasks2) => (.ok t2, tasks2)
  match contenido with
  | none => go none
  | some (.vstr s) =>
    if pyStrip s = "" then
      (.error .validation, tasks)
    else
      go (some (pyStrip s))
  | some _ => (.error .validation, tasks)

end Backend

-- ---------------------------------------------------------------------------
-- Sequences of add/delete operations (for the id-monotonicity claim)
-- ---------------------------------------------------------------------------

/-- One mutating operation against the store: an add (with the content to
store) or a delete (by id).  Each one is a full load → mutate → save cycle
in the code. -/
inductive Op where
  | add (content : String)
  | del (id : Int)
deriving DecidableEq, Repr

/-- One step over (current task list, ids assigned so far): an add records
the id the store assigned; a failed delete leaves the list unchanged. -/
def stepOp (acc : List Task × List Int) (op : Op) : List Task × List Int :=
  match op with
  | .add c =>
    let (t, tasks2) := Models.add_task acc.1 c
    (tasks2, acc.2 ++ [t.id])
  | .del i => ((Models.delete_task acc.1 i).2, acc.2)

/-- Run a sequence of operations from the empty store, returning the final
task list and every id that was ever assigned along the way. -/
def runTrace (ops : List Op) : List Task × List Int :=
  ops.foldl stepOp ([], [])

-- ---------------------------------------------------------------------------
-- The storage file at the byte level, with crash semantics
-- ---------------------------------------------------------------------------

/-- The two paths the savers touch: `tasks.json` and
`TASKS_FILE.with_suffix('.tmp')`, i.e. `tasks.tmp`. -/
inductive PathName where
  | tasksJson
  | tasksTmp
deriving DecidableEq, Repr

/-- Contents of the two files (`none` = the path does not exist). -/
structure Fs where
  main : Option String
  tmp : Option String
deriving DecidableEq, Repr

/-- Read a path. -/
def getPath (fs : Fs) : PathName → Option String
  | .tasksJson => fs.main
  | .tasksTmp => fs.tmp

/-- Overwrite a path. -/
def setPath (fs : Fs) : PathName → Option String → Fs
  | .tasksJson, v => { fs with main := v }
  | .tasksTmp, v => { fs with tmp := v }

/-- A filesystem action a saver performs: `write` is
`open(p, "w"); f.write(data)` (truncate then write), `replace` is
`Path.replace` / `os.replace` (atomic rename). -/
inductive FsOp where
  | write (p : PathName) (data : String)
  | replace (src dst : PathName)
deriving DecidableEq, Repr

/-- Completed effect of one action. -/
def applyFsOp (fs : Fs) : FsOp → Fs
  | .write p d => setPath fs p (some d)
  | .replace s t => setPath (setPath fs t (getPath fs s)) s none

/-- Every initial segment of a string, from `""` to the whole string. -/
def initialSegs (s : String) : List String :=
  (List.range (s.length + 1)).map (fun n => s.take n)

/-- States observable if the process crashes during one action: a write
may have happened not at all, or have truncated the file and written any
prefix of the data; a rename is atomic (before or after only). -/
def midStates (fs : Fs) : FsOp → List Fs
  | .write p d => fs :: (initialSegs d).map (fun pre => setPath fs p (some pre))
  | .replace s t => [fs, applyFsOp fs (.replace s t)]

/-- All filesystem states observable if the process crashes at any point
while the action list runs (the final state included). -/
def crashStates : Fs → List FsOp → List Fs
  | fs, [] => [fs]
  | fs, op :: rest => midStates fs op ++ crashStates (applyFsOp fs op) rest

/-- Serialized form of one task as written by the savers (whitespace
details of `json.dump(..., indent=2)` are immaterial to the claims and not
reproduced). -/
def dumpTask (t : Task) : String :=
  "\x7b\"id\": " ++ toString t.id ++ ", \"content\": \"" ++ t.content ++
    "\", \"state\": \"" ++ t.state ++ "\"\x7d"

/-- Serialized form of the whole task list. -/
def dumpTasks (ts : List Task) : String :=
  "[" ++ String.intercalate ", " (ts.map dumpTask) ++ "]"

/-- `tasks.py` line 33, `guardar_tareas(tareas)` as its filesystem
actions: write the serialized list to `tasks.tmp`, then
`tmp_file.replace(TASKS_FILE)`. -/
def guardar_tareasOps (tareas : List Task) : List FsOp :=
  [.write .tasksTmp (dumpTasks tareas), .replace .tasksTmp .tasksJson]

/-- `app/models.py` line 54, `_save_tasks(tasks)` as its filesystem
actions (identical pattern in `backend.py` line 61): a single direct
`open(TASKS_FILE, "w"); json.dump(...)`, no temporary file. -/
def save_tasksOps (tasks : List Task) : List FsOp :=
  [.write .tasksJson (dumpTasks tasks)]

-- ---------------------------------------------------------------------------
-- Helper lemmas
-- ---------------------------------------------------------------------------

theorem foldl_max_le (x : Int) (xs : List Int) : x ≤ xs.foldl max x := by
  induction xs generalizing x with
  | nil => exact le_refl x
  | cons y ys ih =>
    exact le_trans (le_max_left x y) (ih (max x y))

theorem mem_le_foldl_max {a : Int} (x : Int) {xs : List Int} (h : a ∈ xs) :
    a ≤ xs.foldl max x := by
  induction xs generalizing x with
  | nil => cases h
  | cons y ys ih =>
    rcases List.mem_cons.mp h with h1 | h1
    · subst h1
      exact le_trans (le_max_right x a) (foldl_max_le (max x a) ys)
    · exact ih (max x y) h1

theorem foldl_max_mem (x : Int) (xs : List Int) : xs.foldl max x ∈ x :: xs := by
  induction xs generalizing x with
  | nil => exact List.mem_singleton.mpr rfl
  | cons y ys ih =>
    have h := ih (max x y)
    rcases List.mem_cons.mp h with h1 | h1
    · show List.foldl max (max x y) ys ∈ x :: y :: ys
      rw [h1]
      rcases max_choice x y with h2 | h2 <;> rw [h2] <;> simp
    · exact List.mem_cons.mpr (Or.inr (List.mem_cons.mpr (Or.inr h1)))

theorem lt_pyMax_succ {a : Int} {xs : List Int} (h : a ∈ xs) : a < pyMax xs 0 + 1 := by
  cases xs with
  | nil => cases h
  | cons x rest =>
    have hle : a ≤ rest.foldl max x := by
      rcases List.mem_cons.mp h with h1 | h1
      · exact h1 ▸ foldl_max_le x rest
      · exact mem_le_foldl_max x h1
    have hpy : pyMax (x :: rest) 0 = rest.foldl max x := rfl
    omega

theorem pyMax_add_one (ts : List Task) :
    pyMax (ts.map Task.id) 0 + 1 = generar_id_unico ts := by
  cases ts <;> rfl

theorem id_lt_generar {tareas : List Task} {t : Task} (h : t ∈ tareas) :
    t.id < generar_id_unico tareas := by
  have hm : t.id ∈ tareas.map Task.id := List.mem_map_of_mem Task.id h
  have hlt := lt_pyMax_succ hm
  rwa [pyMax_add_one] at hlt

theorem updateFirst_eq_some {f : Task → Task} {i : Int} :
    ∀ {ts : List Task} {t2 : Task} {ts2 : List Task},
      Models.updateFirst f i ts = some (t2, ts2) →
      ∃ pre t post, ts = pre ++ t :: post ∧ t.id = i ∧ (∀ u ∈ pre, u.id ≠ i) ∧
        t2 = f t ∧ ts2 = pre ++ f t :: post := by
  intro ts
  induction ts with
  | nil => intro t2 ts2 h; simp [Models.updateFirst] at h
  | cons t rest ih =>
    intro t2 ts2 h
    by_cases hid : t.id = i
    · refine ⟨[], t, rest, by simp, hid, by simp, ?_, ?_⟩ <;>
        · simp [Models.updateFirst, hid] at h
          simp [h.1.symm, h.2.symm]
    · simp only [Models.updateFirst, if_neg hid] at h
      cases hrec : Models.updateFirst f i rest with
      | none => rw [hrec] at h; cases h
      | some p =>
        rw [hrec] at h
        obtain ⟨u, rest2⟩ := p
        obtain ⟨pre, tm, post, hts, htm, hpre, ht2, hts2⟩ := ih hrec
        refine ⟨t :: pre, tm, post, by simp [hts], htm, ?_, ?_, ?_⟩
        · intro v hv
          rcases List.mem_cons.mp hv with h1 | h1
          · exact h1 ▸ hid
          · exact hpre v h1
        · cases h; exact ht2
        · cases h; simp [hts2]

theorem updateFirst_none {f : Task → Task} {i : Int} :
    ∀ {ts : List Task}, Models.updateFirst f i ts = none → ∀ t ∈ ts, t.id ≠ i := by
  intro ts
  induction ts with
  | nil => intro _ t ht; cases ht
  | cons u rest ih =>
    intro h t ht
    by_cases hid : u.id = i
    · simp [Models.updateFirst, hid] at h
    · simp only [Models.updateFirst, if_neg hid] at h
      cases hrec : Models.updateFirst f i rest with
      | none =>
        rcases List.mem_cons.mp ht with h1 | h1
        · exact h1 ▸ hid
        · exact ih hrec t h1
      | some p => rw [hrec] at h; obtain ⟨u2, r2⟩ := p; cases h

theorem filter_ne_eq_self {ts : List Task} {i : Int} (h : ∀ t ∈ ts, t.id ≠ i) :
    ts.filter (fun t => t.id != i) = ts := by
  apply List.filter_eq_self.mpr
  intro t ht
  exact bne_iff_ne.mpr (h t ht)

theorem filter_ne_length_lt {ts : List Task} {i : Int} (h : ∃ t ∈ ts, t.id = i) :
    (ts.filter (fun t => t.id != i)).length < ts.length := by
  induction ts with
  | nil => obtain ⟨t, ht, _⟩ := h; cases ht
  | cons u rest ih =>
    by_cases hid : u.id = i
    · have hdrop : (u :: rest).filter (fun t => t.id != i) =
          rest.filter (fun t => t.id != i) := by
        simp [List.filter_cons, hid]
      rw [hdrop]
      have hle := List.length_filter_le (fun t => t.id != i) rest
      simp only [List.length_cons]
      omega
    · obtain ⟨t, ht, hti⟩ := h
      rcases List.mem_cons.mp ht with h1 | h1
      · exact absurd (h1 ▸ hti) hid
      · have hkeep : (u :: rest).filter (fun t => t.id != i) =
            u :: rest.filter (fun t => t.id != i) := by
          have hb : (u.id != i) = true := bne_iff_ne.mpr hid
          simp [List.filter_cons, hb]
        rw [hkeep]
        have := ih ⟨t, h1, hti⟩
        simp only [List.length_cons]
        omega

-- ---------------------------------------------------------------------------
-- Claims
-- ---------------------------------------------------------------------------

/-- Claim C7 (confirmed): `generar_id_unico` returns `1` on the empty
collection, and otherwise `1 +` the maximum existing id — the returned
value is `m + 1` where `m` is the id of some task of the collection and
bounds every id in it. -/
theorem generar_id_unico_spec (tareas : List Task) :
    (tareas = [] → generar_id_unico tareas = 1) ∧
    (tareas ≠ [] → ∃ t ∈ tareas, (∀ u ∈ tareas, u.id ≤ t.id) ∧
      generar_id_unico tareas = t.id + 1) := by
  constructor
  · intro h; subst h; rfl
  · intro hne
    cases tareas with
    | nil => exact absurd rfl hne
    | cons u rest =>
      have hmem := foldl_max_mem u.id (rest.map Task.id)
      have hex : ∃ t ∈ u :: rest, t.id = (rest.map Task.id).foldl max u.id := by
        rcases List.mem_cons.mp hmem with h1 | h1
        · exact ⟨u, List.mem_cons_self u rest, h1.symm⟩
        · obtain ⟨t, ht, hte⟩ := List.mem_map.mp h1
          exact ⟨t, List.mem_cons_of_mem u ht, hte⟩
      obtain ⟨t, ht, hte⟩ := hex
      refine ⟨t, ht, ?_, ?_⟩
      · intro v hv
        rw [hte]
        rcases List.mem_cons.mp hv with h1 | h1
        · exact h1 ▸ foldl_max_le u.id (rest.map Task.id)
        · exact mem_le_foldl_max u.id (List.mem_map_of_mem Task.id h1)
      · show (rest.map Task.id).foldl max u.id + 1 = t.id + 1
        rw [hte]

/-- Witness for C7 at the empty collection and at a two-task
collection. -/
theorem generar_id_unico_spec_witness :
    generar_id_unico [] = 1 ∧
    ∃ t ∈ [(⟨2, "a", "x"⟩ : Task), ⟨5, "b", "y"⟩],
      (∀ u ∈ [(⟨2, "a", "x"⟩ : Task), ⟨5, "b", "y"⟩], u.id ≤ t.id) ∧
      generar_id_unico [(⟨2, "a", "x"⟩ : Task), ⟨5, "b", "y"⟩] = t.id + 1 :=
  ⟨(generar_id_unico_spec []).1 rfl,
   (generar_id_unico_spec [⟨2, "a", "x"⟩, ⟨5, "b", "y"⟩]).2 (by decide)⟩

/-- Claim C1 (counterexample): the sequence `add "a"; delete 1` from the
empty store ends with id `1` recorded as having been assigned, and the
next id computed on the resulting collection is `1` again — an id that was
already assigned during the lifetime of this very collection is
returned anew after its task was deleted. -/
theorem nextId_reuse_after_delete_cex :
    (1 : Int) ∈ (runTrace [Op.add "a", Op.del 1]).2 ∧
    generar_id_unico (runTrace [Op.add "a", Op.del 1]).1 = 1 := by
  decide

/-- Claim C1 (amended): across every sequence of add and delete
operations from the empty store, the next id is strictly greater than the
id of every task currently in the collection, so an id of a live task is
never reused; an id whose task was deleted can however be assigned
again. -/
theorem nextId_gt_live_ids (ops : List Op) (t : Task)
    (h : t ∈ (runTrace ops).1) :
    t.id < generar_id_unico (runTrace ops).1 :=
  id_lt_generar h

/-- Witness for the amended C1 after one add. -/
theorem nextId_gt_live_ids_witness :
    (⟨1, "a", "Por Hacer"⟩ : Task) ∈ (runTrace [Op.add "a"]).1 ∧
    (⟨1, "a", "Por Hacer"⟩ : Task).id < generar_id_unico (runTrace [Op.add "a"]).1 :=
  ⟨by decide, nextId_gt_live_ids [Op.add "a"] ⟨1, "a", "Por Hacer"⟩ (by decide)⟩

/-- Claim C3 (counterexample): on an unparseable storage file both loaders
silently return the empty collection instead of failing: `_load_tasks`
returns a successful empty list (no error value of any kind), and
`cargar_tareas` returns the empty JSON array. -/
theorem load_corrupt_silent_empty_cex :
    Models.load_tasks Stored.corrupt = Except.ok [] ∧
    cargar_tareas Stored.corrupt = Json.arr [] :=
  ⟨rfl, rfl⟩

/-- Claim C3 (amended): load returns the stored sequence; an absent file
yields the empty sequence; an unparseable file also yields the empty
sequence silently (the decode error is caught), rather than failing with
a storage-corruption error. -/
theorem load_behavior :
    cargar_tareas Stored.missing = Json.arr [] ∧
    cargar_tareas Stored.corrupt = Json.arr [] ∧
    (∀ j : Json, cargar_tareas (Stored.json j) = j) ∧
    Models.load_tasks Stored.missing = Except.ok [] ∧
    Models.load_tasks Stored.corrupt = Except.ok [] :=
  ⟨rfl, rfl, fun _ => rfl, rfl, rfl⟩

/-- Encoding one task and decoding it yields the task back. -/
theorem from_dict_encodeTask (t : Task) :
    Models.from_dict (Models.encodeTask t) = .ok t := by
  simp [Models.from_dict, Models.encodeTask, Models.lookupKey]

/-- Claim C9 (confirmed): saving any sequence of tasks and loading the
stored file back yields exactly that sequence — same ids, same content,
same state, same order. -/
theorem save_load_roundtrip (tasks : List Task) :
    Models.load_tasks (Models.save_tasksStored tasks) = .ok tasks := by
  show Models.decodeTasks (tasks.map Models.encodeTask) = .ok tasks
  induction tasks with
  | nil => rfl
  | cons t rest ih =>
    simp [Models.decodeTasks, from_dict_encodeTask, ih, Except.bind, Bind.bind]

/-- Claim C4 (confirmed): in both endpoints a string content is stripped;
an empty result fails with a validation error (the store unchanged);
otherwise a task with the next id (as computed by `generar_id_unico`),
the stripped content and the default state `"Por Hacer"` — or the
explicitly provided state in `backend.py` — is appended and returned. -/
theorem create_task_spec (tasks : List Task) (s : String) (est : String) :
    (pyStrip s = "" →
      Routes.create_task tasks (.vstr s) = (.error .validation, tasks) ∧
      Backend.create_task tasks (some (.vstr s)) none = (.error .validation, tasks)) ∧
    (pyStrip s ≠ "" →
      Routes.create_task tasks (.vstr s) =
        (.ok ⟨generar_id_unico tasks, pyStrip s, "Por Hacer"⟩,
          tasks ++ [⟨generar_id_unico tasks, pyStrip s, "Por Hacer"⟩]) ∧
      Backend.create_task tasks (some (.vstr s)) none =
        (.ok ⟨generar_id_unico tasks, pyStrip s, "Por Hacer"⟩,
          tasks ++ [⟨generar_id_unico tasks, pyStrip s, "Por Hacer"⟩]) ∧
      Backend.create_task tasks (some (.vstr s)) (some est) =
        (.ok ⟨generar_id_unico tasks, pyStrip s, est⟩,
          tasks ++ [⟨generar_id_unico tasks, pyStrip s, est⟩])) := by
  constructor
  · intro h
    constructor <;> simp [Routes.create_task, Backend.create_task, pyStr, h]
  · intro h
    refine ⟨?_, ?_, ?_⟩ <;>
      simp [Routes.create_task, Backend.create_task, Models.add_task, pyStr, h,
        pyMax_add_one]

/-- Witness for C4: a whitespace-only content is rejected, `" hi "` is
stored stripped with the default state. -/
theorem create_task_spec_witness :
    pyStrip " " = "" ∧
    Routes.create_task [] (.vstr " ") = (.error .validation, []) ∧
    pyStrip " hi " ≠ "" ∧
    Routes.create_task [] (.vstr " hi ") =
      (.ok ⟨generar_id_unico [], pyStrip " hi ", "Por Hacer"⟩,
        [⟨generar_id_unico [], pyStrip " hi ", "Por Hacer"⟩]) :=
  ⟨by decide, ((create_task_spec [] " " "x").1 (by decide)).1, by decide,
   by simpa using ((create_task_spec [] " hi " "x").2 (by decide)).1⟩

/-- Claim C5 (counterexample): an update providing the invalid state `""`
on an existing task does not fail with a validation error: it succeeds,
mutates the task's state to the empty string and persists it. -/
theorem update_empty_state_accepted_cex :
    Routes.modify_task [⟨1, "a", "Por Hacer"⟩] 1 none (some "") =
      (.ok ⟨1, "a", ""⟩, [⟨1, "a", ""⟩]) ∧
    (Except.ok (⟨1, "a", ""⟩ : Task) : Except ApiError Task) ≠
      .error .validation := by
  decide

/-- Claim C5 (amended): a provided content is validated — when it strips
to empty the call fails with a validation error before any lookup,
mutation or save, leaving the collection and storage unchanged; the state
field, by contrast, is not validated and is applied as given. -/
theorem modify_task_content_validation (tasks : List Task) (taskId : Int)
    (v : PyVal) (st : Option String) (h : pyStrip (pyStr v) = "") :
    Routes.modify_task tasks taskId (some v) st = (.error .validation, tasks) := by
  simp [Routes.modify_task, h]

/-- Witness for the amended C5. -/
theorem modify_task_content_validation_witness :
    pyStrip (pyStr (.vstr " ")) = "" ∧
    Routes.modify_task [] 3 (some (.vstr " ")) none = (.error .validation, []) :=
  ⟨by decide, modify_task_content_validation [] 3 (.vstr " ") none (by decide)⟩

/-- Claim C6 (confirmed): deleting an id no task has fails with a
not-found error and leaves the collection (and hence storage) unchanged;
deleting an existing id succeeds, persists exactly the tasks whose id
differs, and the resulting collection never contains the deleted id. -/
theorem delete_task_spec (tasks : List Task) (taskId : Int) :
    ((∀ t ∈ tasks, t.id ≠ taskId) →
      Models.delete_task tasks taskId = (.error .notFound, tasks)) ∧
    ((∃ t ∈ tasks, t.id = taskId) →
      (Models.delete_task tasks taskId).1 = .ok () ∧
      (Models.delete_task tasks taskId).2 =
        tasks.filter (fun t => t.id != taskId) ∧
      ∀ t ∈ (Models.delete_task tasks taskId).2, t.id ≠ taskId) := by
  constructor
  · intro h
    have heq := filter_ne_eq_self h
    simp [Models.delete_task, heq]
  · intro h
    have hlt := filter_ne_length_lt h
    have hne : (tasks.filter (fun t => t.id != taskId)).length ≠ tasks.length :=
      Nat.ne_of_lt hlt
    have hd : Models.delete_task tasks taskId =
        (.ok (), tasks.filter (fun t => t.id != taskId)) := by
      simp only [Models.delete_task]
      exact if_neg hne
    refine ⟨?_, ?_, ?_⟩
    · rw [hd]
    · rw [hd]
    · intro t ht
      rw [hd] at ht
      have := List.of_mem_filter ht
      exact bne_iff_ne.mp this

/-- Witness for C6: deleting the absent id 2 fails and changes nothing;
deleting the present id 1 succeeds and removes it. -/
theorem delete_task_spec_witness :
    Models.delete_task [⟨1, "a", "x"⟩] 2 = (.error .notFound, [⟨1, "a", "x"⟩]) ∧
    ((Models.delete_task [⟨1, "a", "x"⟩] 1).1 = .ok () ∧
      (Models.delete_task [⟨1, "a", "x"⟩] 1).2 =
        [(⟨1, "a", "x"⟩ : Task)].filter (fun t => t.id != 1) ∧
      ∀ t ∈ (Models.delete_task [⟨1, "a", "x"⟩] 1).2, t.id ≠ 1) :=
  ⟨(delete_task_spec [⟨1, "a", "x"⟩] 2).1 (by decide),
   (delete_task_spec [⟨1, "a", "x"⟩] 1).2 (by decide)⟩

/-- Anatomy of a successful `update_task`: the store splits around the
first task carrying the id; only that task is rewritten (each provided
field assigned, the id kept), everything before and after it is
untouched. -/
theorem update_task_ok {tasks : List Task} {taskId : Int}
    {c s : Option String} {t2 : Task} {r : List Task}
    (h : Models.update_task tasks taskId c s = (.ok t2, r)) :
    ∃ pre t post, tasks = pre ++ t :: post ∧ t.id = taskId ∧
      (∀ u ∈ pre, u.id ≠ taskId) ∧
      t2 = ⟨t.id, c.getD t.content, s.getD t.state⟩ ∧
      r = pre ++ t2 :: post := by
  unfold Models.update_task at h
  cases hu : Models.updateFirst
      (fun t => { t with content := c.getD t.content, state := s.getD t.state })
      taskId tasks with
  | none => rw [hu] at h; simp at h
  | some p =>
    obtain ⟨u, r2⟩ := p
    rw [hu] at h
    have hur : u = t2 ∧ r2 = r := by simpa [Prod.ext_iff] using h
    obtain ⟨hu2, hr2⟩ := hur
    obtain ⟨pre, t, post, hts, hid, hpre, ht2, hrr⟩ := updateFirst_eq_some hu
    subst hu2
    subst hr2
    exact ⟨pre, t, post, hts, hid, hpre, ht2, by rw [hrr, ht2]⟩

/-- Claim C8 (confirmed): an update on an existing id rewrites only the
first task carrying that id, keeping its id and every omitted field; the
rest of the collection is untouched; an update providing no field at all
is a no-op returning the task unchanged and leaving the stored collection
equal to the original. -/
theorem update_task_frame (tasks : List Task) (taskId : Int) :
    (∀ t2 r, Models.update_task tasks taskId none none = (.ok t2, r) →
      r = tasks ∧ t2 ∈ tasks ∧ t2.id = taskId) ∧
    (∀ c s t2 r, Models.update_task tasks taskId c s = (.ok t2, r) →
      ∃ pre t post, tasks = pre ++ t :: post ∧ t.id = taskId ∧
        (∀ u ∈ pre, u.id ≠ taskId) ∧
        t2 = ⟨t.id, c.getD t.content, s.getD t.state⟩ ∧
        r = pre ++ t2 :: post) := by
  constructor
  · intro t2 r h
    obtain ⟨pre, t, post, hts, hid, _, ht2, hr⟩ := update_task_ok h
    have hno : t2 = t := by rw [ht2]; cases t; simp
    subst hno
    refine ⟨by rw [hr, hts], ?_, hid ▸ rfl⟩
    rw [hts]
    exact List.mem_append.mpr (Or.inr (List.mem_cons_self _ _))
  · intro c s t2 r h
    exact update_task_ok h

/-- Witness for C8 on a two-task store: the empty update is a no-op, a
content-only update leaves state, id and the other task untouched. -/
theorem update_task_frame_witness :
    ([(⟨1, "a", "x"⟩ : Task), ⟨2, "b", "y"⟩] = [(⟨1, "a", "x"⟩ : Task), ⟨2, "b", "y"⟩] ∧
      (⟨2, "b", "y"⟩ : Task) ∈ [(⟨1, "a", "x"⟩ : Task), ⟨2, "b", "y"⟩] ∧
      (⟨2, "b", "y"⟩ : Task).id = 2) ∧
    ∃ pre t post,
      [(⟨1, "a", "x"⟩ : Task), ⟨2, "b", "y"⟩] = pre ++ t :: post ∧ t.id = 2 ∧
      (∀ u ∈ pre, u.id ≠ 2) ∧
      (⟨2, "c", "y"⟩ : Task) = ⟨t.id, (some "c").getD t.content, (none : Option String).getD t.state⟩ ∧
      [(⟨1, "a", "x"⟩ : Task), ⟨2, "c", "y"⟩] = pre ++ ⟨2, "c", "y"⟩ :: post :=
  ⟨(update_task_frame [⟨1, "a", "x"⟩, ⟨2, "b", "y"⟩] 2).1 ⟨2, "b", "y"⟩
      [⟨1, "a", "x"⟩, ⟨2, "b", "y"⟩] rfl,
   (update_task_frame [⟨1, "a", "x"⟩, ⟨2, "b", "y"⟩] 2).2 (some "c") none
      ⟨2, "c", "y"⟩ [⟨1, "a", "x"⟩, ⟨2, "c", "y"⟩] rfl⟩

/-- Claim C10 (counterexample): at the `app/routes.py` update endpoint a
non-string content (here the JSON boolean `true`) together with an id no
task has is answered with not-found (404), not with a validation failure:
`str()` coerces the boolean to the non-empty string `"True"`, so the
emptiness check passes and the lookup runs. -/
theorem modify_nonstring_content_404_cex :
    Routes.modify_task [] 999 (some (.vbool true)) none =
      (.error .notFound, []) ∧
    ApiError.notFound ≠ ApiError.validation := by
  decide

/-- Claim C10 (amended): in `backend.py` content validation (string type
and non-emptiness after strip) runs before the task lookup, so an invalid
content with a nonexistent id reports the validation failure and leaves
the store unchanged; in `app/routes.py` content is first coerced with
`str()`, so only a content whose string form strips to empty is a
validation failure (reported before lookup, store unchanged) — a
non-string content whose string form is non-empty proceeds to the lookup
and a missing id then yields not-found. -/
theorem update_validation_before_lookup (tasks : List Task) (taskId : Int)
    (v : PyVal) (st : Option String) :
    (isStrVal v = false →
      Backend.update_task tasks taskId (some v) st = (.error .validation, tasks)) ∧
    (∀ s2 : String, pyStrip s2 = "" →
      Backend.update_task tasks taskId (some (.vstr s2)) st =
        (.error .validation, tasks)) ∧
    (pyStrip (pyStr v) = "" →
      Routes.modify_task tasks taskId (some v) st = (.error .validation, tasks)) := by
  refine ⟨?_, ?_, ?_⟩
  · intro h
    cases v with
    | vstr s => simp [isStrVal] at h
    | vint n => simp [Backend.update_task]
    | vbool b => simp [Backend.update_task]
  · intro s2 h
    simp [Backend.update_task, h]
  · intro h
    simp [Routes.modify_task, h]

/-- Witness for the amended C10 on an empty store with a nonexistent
id. -/
theorem update_validation_before_lookup_witness :
    isStrVal (.vbool true) = false ∧
    Backend.update_task [] 999 (some (.vbool true)) none = (.error .validation, []) ∧
    pyStrip " " = "" ∧
    Backend.update_task [] 5 (some (.vstr " ")) none = (.error .validation, []) ∧
    pyStrip (pyStr (.vstr "\t")) = "" ∧
    Routes.modify_task [] 7 (some (.vstr "\t")) none = (.error .validation, []) :=
  ⟨rfl, (update_validation_before_lookup [] 999 (.vbool true) none).1 rfl,
   by decide, (update_validation_before_lookup [] 5 (.vstr "x") none).2.1 " " (by decide),
   by decide, (update_validation_before_lookup [] 7 (.vstr "\t") none).2.2 (by decide)⟩

/-- Claim C2 (counterexample): `_save_tasks` of `app/models.py` writes the
storage file directly, so a crash mid-write leaves an observable truncated
state: starting from a file holding `"[]"`, saving one task can leave
`tasks.json` holding `""` — neither the old contents nor the new
serialized contents. -/
theorem save_tasks_truncation_cex :
    Fs.mk (some "") none ∈
      crashStates ⟨some "[]", none⟩ (save_tasksOps [⟨1, "a", "Por Hacer"⟩]) ∧
    (Fs.mk (some "") none).main ≠ (Fs.mk (some "[]") none).main ∧
    (Fs.mk (some "") none).main ≠ some (dumpTasks [⟨1, "a", "Por Hacer"⟩]) := by
  decide

/-- Claim C2 (amended): `guardar_tareas` of `tasks.py` is atomic — it
writes the serialized tasks to the temporary path and then atomically
renames it onto `tasks.json`, so whatever the crash point, the storage
file holds either its old contents or the complete new serialization;
`_save_tasks` of `app/models.py` and `backend.py` instead writes the
storage file directly and is not atomic. -/
theorem guardar_tareas_atomic (tareas : List Task) (fs : Fs) (s : Fs)
    (hs : s ∈ crashStates fs (guardar_tareasOps tareas)) :
    s.main = fs.main ∨ s.main = some (dumpTasks tareas) := by
  simp only [guardar_tareasOps, crashStates, midStates, applyFsOp, getPath, setPath,
    List.mem_append, List.mem_cons, List.mem_map, List.mem_singleton,
    List.not_mem_nil, or_false] at hs
  rcases hs with (rfl | ⟨pre, _, rfl⟩) | (rfl | rfl) | rfl <;> simp

/-- Witness for the amended C2: saving the empty list over an absent file,
the state crashed after the temp write has the old (absent) main file. -/
theorem guardar_tareas_atomic_witness :
    Fs.mk none (some (dumpTasks [])) ∈
      crashStates ⟨none, none⟩ (guardar_tareasOps []) ∧
    ((Fs.mk none (some (dumpTasks []))).main = (Fs.mk none none).main ∨
      (Fs.mk none (some (dumpTasks []))).main = some (dumpTasks [])) :=
  ⟨by decide, guardar_tareas_atomic [] ⟨none, none⟩ ⟨none, some (dumpTasks [])⟩ (by decide)⟩

end Kanban
